import Mathlib

/-!
Shallow embedding of the django-video data model (`videostream/models.py`).

The repository is a Django schema layer: a base `Video` model with a
publish-date latch in `save`, a permalink derivation `get_absolute_url`,
three concrete variants (`BasicVideo` with its `HTML5Video` payloads,
`EmbedVideo`, `FlashVideo`), a fixed media-type choice table, and a
player-size style formatter.  External behaviour the code calls into
(`datetime.now`, C `strftime`, Python `str.split` and `str.lower`) is
modelled by explicit, executable Lean functions; clock reads are passed
to `save` as arguments.
-/

namespace Videostream

/-- Timestamps, as the fields of a Python `datetime` value that the code
inspects (`strftime` uses year, month, day; equality uses all fields). -/
structure DateTime where
  year : Nat
  month : Nat
  day : Nat
  hour : Nat
  minute : Nat
  second : Nat
deriving DecidableEq, Repr

/-- Python `str.split(sep)` for a one-character separator, on the
character list: splits at every occurrence, keeping empty pieces, and
always returns at least one piece. -/
def splitOnCharAux (c : Char) : List Char → List Char → List (List Char)
  | [], acc => [acc.reverse]
  | x :: xs, acc =>
      if x = c then acc.reverse :: splitOnCharAux c xs []
      else splitOnCharAux c xs (x :: acc)

/-- Python `str.split(c)` on strings. -/
def pySplit (s : String) (c : Char) : List String :=
  (splitOnCharAux c s.data []).map String.mk

/-- Python `str.lower()` (ASCII case folding suffices for the month
abbreviations the code lowercases). -/
def pyLower (s : String) : String :=
  String.mk (s.data.map Char.toLower)

/-- Decimal digit characters of a positive number, most significant
first; the first argument is recursion fuel (taking the number itself as
fuel is always enough, since every step divides by ten). -/
def digitsAux : Nat → Nat → List Char
  | _, 0 => []
  | 0, _ + 1 => []
  | fuel + 1, n + 1 => digitsAux fuel ((n + 1) / 10) ++ [Nat.digitChar ((n + 1) % 10)]

/-- C `strftime("%Y")` as the code's Linux runtime renders it: the year
as an unpadded decimal numeral. -/
def formatYear (y : Nat) : String :=
  if y = 0 then "0" else String.mk (digitsAux y y)

/-- C `strftime("%d")`: the day of the month, zero-padded to two digits. -/
def pad2 (n : Nat) : String :=
  if n < 10 then "0" ++ Nat.repr n else Nat.repr n

/-- C `strftime("%b")`: the abbreviated month name in the C locale. -/
def monthAbbrev : Nat → String
  | 1 => "Jan"
  | 2 => "Feb"
  | 3 => "Mar"
  | 4 => "Apr"
  | 5 => "May"
  | 6 => "Jun"
  | 7 => "Jul"
  | 8 => "Aug"
  | 9 => "Sep"
  | 10 => "Oct"
  | 11 => "Nov"
  | 12 => "Dec"
  | _ => ""

/-- The base `Video` model: the fields of `videostream.models.Video`,
with the implicit Django primary key `id`.  File-ish and relational
fields not read by any modelled operation (`categories`) live in the
collaborator layer and are omitted. -/
structure Video where
  id : Nat
  title : String
  slug : String
  tags : String
  description : Option String
  is_public : Bool
  allow_comments : Bool
  created_date : DateTime
  modified_date : DateTime
  publish_date : Option DateTime
deriving DecidableEq, Repr

/-- The permalink value `Video.get_absolute_url` produces: either the
`videostream_video_detail` route keyed by year, month, day and slug, or
the `videostream_video_detail_id` route keyed by the primary key. -/
inductive Url where
  | detail (year month day slug : String)
  | detailById (id : Nat)
deriving DecidableEq, Repr

/-- `Video.get_absolute_url`: when `publish_date` is set (a `datetime`
is always truthy, so the Python `if self.publish_date` test is exactly
a non-null test) the detail route is keyed by `strftime("%Y")`,
`strftime("%b").lower()`, `strftime("%d")` and the slug; otherwise the
id route is keyed by `self.id`. -/
def Video.get_absolute_url (v : Video) : Url :=
  match v.publish_date with
  | some d =>
      Url.detail (formatYear d.year) (pyLower (monthAbbrev d.month)) (pad2 d.day) v.slug
  | none => Url.detailById v.id

/-- `Video.save`: the two successive `datetime.now()` reads the method
makes are passed in as `now1` (line 84, assigned to `modified_date`) and
`now2` (line 86, assigned to `publish_date` when the latch fires). -/
def Video.save (v : Video) (now1 now2 : DateTime) : Video :=
  let v1 : Video := { v with modified_date := now1 }
  if v1.publish_date = none ∧ v1.is_public then
    { v1 with publish_date := some now2 }
  else v1

/-- A caller editing `is_public` before a save, as the form layer does. -/
def setPublic (v : Video) (b : Bool) : Video :=
  { v with is_public := b }

/-- A sequence of edit-then-save rounds: each step sets `is_public` to
the given flag and then calls `Video.save` with that round's two clock
reads. -/
def saveSequence (v : Video) (steps : List (Bool × DateTime × DateTime)) : Video :=
  steps.foldl (fun u s => (setPublic u s.1).save s.2.1 s.2.2) v

/-- `HTML5Video.OGG`. -/
def OGG : Nat := 0

/-- `HTML5Video.WEBM`. -/
def WEBM : Nat := 1

/-- `HTML5Video.MP4`. -/
def MP4 : Nat := 2

/-- `HTML5Video.FLASH`. -/
def FLASH : Nat := 3

/-- The `HTML5Video.VIDEO_TYPE` choices table, byte for byte as the
source writes it (including the misspelt MP4 label). -/
def VIDEO_TYPE : List (Nat × String) :=
  [(OGG, "video/ogg"), (WEBM, "video/webm"), (MP4, "vidoe/mp4"), (FLASH, "video/flv")]

/-- The `HTML5Video` model: the enum-valued `video_type` field (Django
default `WEBM`), the optional file, and the `basic_video` foreign key,
stored as the id of the owning `BasicVideo` row. -/
structure HTML5Video where
  video_type : Nat := WEBM
  video_file : Option String := none
  basic_video : Nat
deriving DecidableEq, Repr

/-- Django `get_video_type_display()`: the label the choices table gives
the stored value; Django falls back to the raw value when it is not a
registered choice. -/
def get_video_type_display (h : HTML5Video) : String :=
  (VIDEO_TYPE.lookup h.video_type).getD (Nat.repr h.video_type)

/-- The variant payload of a concrete video record: `BasicVideo` rows
carry their related `HTML5Video` payload (if any), `EmbedVideo` rows the
url and embed code, `FlashVideo` rows the upload, encoded file,
thumbnail and encode flag. -/
inductive Variant where
  | basic (html5video : Option HTML5Video)
  | embed (video_url : Option String) (video_code : Option String)
  | flash (videoupload flvfile thumbnail : Option String) (encode : Bool)
deriving DecidableEq, Repr

/-- A concrete video record: the base `Video` row plus its variant
payload. -/
structure VideoRecord where
  base : Video
  variant : Variant
deriving DecidableEq, Repr

/-- The variant-dispatch failure: `video_type` is a method of
`BasicVideo` only, and its body reads the related `HTML5Video` payload,
so any record without such a payload makes the call fail. -/
inductive UnknownVariantError where
  | unknownVariant
deriving DecidableEq, Repr

/-- `BasicVideo.video_type`: the method exists only on `BasicVideo`,
and its body reads `self.html5video`.  Because `HTML5Video.basic_video`
is a `ForeignKey` (not a `OneToOneField`), Django names the reverse
accessor `html5video_set`, so that attribute read raises on every
`BasicVideo` record, with or without payload rows; on the other
variants the method does not exist at all.  Every invocation therefore
fails, and the intended label (see `get_video_type_display`) is never
returned. -/
def video_type (r : VideoRecord) : Except UnknownVariantError String :=
  match r.variant with
  | Variant.basic _ => Except.error UnknownVariantError.unknownVariant
  | _ => Except.error UnknownVariantError.unknownVariant

/-- Whether a record carries a self-hosted (`HTML5Video`) payload. -/
def hasSelfHostedPayload (r : VideoRecord) : Bool :=
  match r.variant with
  | Variant.basic (some _) => true
  | _ => false

/-- `FlashVideo.get_player_size`: reads the `VIDEOSTREAM_SIZE` setting
(defaulting to `"320x240"` when unset), splits it on `x`, and formats
the first two pieces; when the split yields fewer than two pieces the
`size[1]` access fails (modelled as `none`). -/
def get_player_size (cfg : Option String) : Option String :=
  match pySplit (cfg.getD "320x240") 'x' with
  | s0 :: s1 :: _ => some ("width: " ++ s0 ++ "px; height: " ++ s1 ++ "px;")
  | _ => none

/-- The persisted tables the variant-exclusivity question is about: the
`BasicVideo` rows (with their base `Video` columns) and the `HTML5Video`
rows pointing at them. -/
structure Store where
  basicVideos : List Video
  html5Videos : List HTML5Video
deriving DecidableEq, Repr

/-- The constraints the schema declares: primary keys and slugs are
unique across the `Video` rows, and every `HTML5Video.basic_video`
foreign key resolves to an existing row. -/
def Store.valid (s : Store) : Prop :=
  s.basicVideos.Pairwise (fun u v => u.id ≠ v.id ∧ u.slug ≠ v.slug) ∧
  ∀ h ∈ s.html5Videos, ∃ v ∈ s.basicVideos, v.id = h.basic_video

instance (s : Store) : Decidable s.valid := by
  unfold Store.valid
  infer_instance

/-- The `HTML5Video` payload rows owned by a given base row. -/
def Store.payloadsOf (s : Store) (v : Video) : List HTML5Video :=
  s.html5Videos.filter (fun h => h.basic_video == v.id)

/-! ### Concrete fixtures used by witnesses and counterexamples -/

/-- A sample clock read. -/
def dtA : DateTime := ⟨2009, 3, 5, 12, 0, 0⟩

/-- A later sample clock read. -/
def dtB : DateTime := ⟨2009, 3, 5, 12, 0, 1⟩

/-- A sample record with no publish date yet, marked public. -/
def vDraft : Video :=
  { id := 7, title := "Intro", slug := "intro-clip", tags := "", description := none,
    is_public := true, allow_comments := false,
    created_date := dtA, modified_date := dtA, publish_date := none }

/-- A sample record whose publish date is already set. -/
def vPublished : Video := { vDraft with publish_date := some dtA }

/-- A sample `EmbedVideo`-variant record. -/
def rEmbed : VideoRecord :=
  { base := vPublished, variant := Variant.embed (some "http://example.com/v") none }

/-- A payload row pointing at base row 1. -/
def h5A : HTML5Video := { video_type := WEBM, basic_video := 1 }

/-- A second payload row pointing at the same base row 1. -/
def h5B : HTML5Video := { video_type := OGG, basic_video := 1 }

/-- Base row 1. -/
def vBase1 : Video :=
  { id := 1, title := "Clip", slug := "clip", tags := "", description := none,
    is_public := false, allow_comments := false,
    created_date := dtA, modified_date := dtA, publish_date := none }

/-- Base row 2, with no payload rows at all. -/
def vBase2 : Video := { vBase1 with id := 2, slug := "clip-2" }

/-- A store satisfying every declared constraint in which base row 1
owns two `HTML5Video` payload rows and base row 2 owns none. -/
def storeCex : Store := { basicVideos := [vBase1, vBase2], html5Videos := [h5A, h5B] }

/-! ### Helper lemmas on the digit renderer -/

theorem digitsAux_zero (f : Nat) : digitsAux f 0 = [] := by
  cases f <;> rfl

theorem digitsAux_len1 (f n : Nat) (h1 : 1 ≤ n) (h2 : n < 10) (hf : n ≤ f) :
    (digitsAux f n).length = 1 := by
  cases f with
  | zero => omega
  | succ f =>
    cases n with
    | zero => omega
    | succ n =>
      have hd : (n + 1) / 10 = 0 := by omega
      simp [digitsAux, hd, digitsAux_zero]

theorem digitsAux_len2 (f n : Nat) (h1 : 10 ≤ n) (h2 : n < 100) (hf : n ≤ f) :
    (digitsAux f n).length = 2 := by
  cases f with
  | zero => omega
  | succ f =>
    cases n with
    | zero => omega
    | succ n =>
      have hr := digitsAux_len1 f ((n + 1) / 10) (by omega) (by omega) (by omega)
      simp [digitsAux, hr]

theorem digitsAux_len3 (f n : Nat) (h1 : 100 ≤ n) (h2 : n < 1000) (hf : n ≤ f) :
    (digitsAux f n).length = 3 := by
  cases f with
  | zero => omega
  | succ f =>
    cases n with
    | zero => omega
    | succ n =>
      have hr := digitsAux_len2 f ((n + 1) / 10) (by omega) (by omega) (by omega)
      simp [digitsAux, hr]

theorem digitsAux_len4 (f n : Nat) (h1 : 1000 ≤ n) (h2 : n < 10000) (hf : n ≤ f) :
    (digitsAux f n).length = 4 := by
  cases f with
  | zero => omega
  | succ f =>
    cases n with
    | zero => omega
    | succ n =>
      have hr := digitsAux_len3 f ((n + 1) / 10) (by omega) (by omega) (by omega)
      simp [digitsAux, hr]

theorem formatYear_length4 (y : Nat) (h1 : 1000 ≤ y) (h2 : y < 10000) :
    (formatYear y).length = 4 := by
  unfold formatYear
  rw [if_neg (by omega)]
  show (digitsAux y y).length = 4
  exact digitsAux_len4 y y h1 h2 le_rfl

theorem monthAbbrev_lower_mem (m : Nat) (h1 : 1 ≤ m) (h2 : m ≤ 12) :
    pyLower (monthAbbrev m) ∈
      (["jan", "feb", "mar", "apr", "may", "jun",
        "jul", "aug", "sep", "oct", "nov", "dec"] : List String) := by
  interval_cases m <;> decide

/-! ### The claims -/

/-- C1: a `save` on a record whose `publish_date` is null sets
`publish_date` to the current time (the second clock read the method
makes) when `is_public` is true, and leaves it null when `is_public` is
false. -/
theorem save_publish_latch (v : Video) (now1 now2 : DateTime)
    (hp : v.publish_date = none) :
    (v.save now1 now2).publish_date = if v.is_public then some now2 else none := by
  cases hb : v.is_public <;> simp [Video.save, hp, hb]

/-- Witness for C1: both branches of the latch at concrete records. -/
theorem save_publish_latch_witness :
    (vDraft.save dtA dtB).publish_date = (if vDraft.is_public then some dtB else none) ∧
    ((setPublic vDraft false).save dtA dtB).publish_date =
      (if (setPublic vDraft false).is_public then some dtB else none) :=
  ⟨save_publish_latch vDraft dtA dtB rfl,
   save_publish_latch (setPublic vDraft false) dtA dtB rfl⟩

/-- C2: once `publish_date` holds some timestamp, any sequence of
edit-then-save rounds, each free to set `is_public` arbitrarily, leaves
`publish_date` unchanged. -/
theorem saveSequence_preserves_publish (v : Video) (t : DateTime)
    (steps : List (Bool × DateTime × DateTime)) (hp : v.publish_date = some t) :
    (saveSequence v steps).publish_date = some t := by
  induction steps generalizing v with
  | nil => simpa [saveSequence] using hp
  | cons s rest ih =>
    have h1 : ((setPublic v s.1).save s.2.1 s.2.2).publish_date = some t := by
      simp [Video.save, setPublic, hp]
    have h2 : saveSequence v (s :: rest) =
        saveSequence ((setPublic v s.1).save s.2.1 s.2.2) rest := by
      simp [saveSequence]
    rw [h2]
    exact ih _ h1

/-- Witness for C2: a published record saved twice more, with
`is_public` toggled off and back on, keeps its original timestamp. -/
theorem saveSequence_preserves_publish_witness :
    (saveSequence vPublished [(false, dtB, dtB), (true, dtB, dtB)]).publish_date = some dtA :=
  saveSequence_preserves_publish vPublished dtA [(false, dtB, dtB), (true, dtB, dtB)] rfl

/-- C3: every `save` sets `modified_date` to the current time (the
first clock read the method makes), for every record. -/
theorem save_sets_modified (v : Video) (now1 now2 : DateTime) :
    (v.save now1 now2).modified_date = now1 := by
  simp only [Video.save]
  split <;> rfl

/-- C4: `get_absolute_url` is a pure function of the record: with
`publish_date` set it yields the detail path keyed by the year (a
four-digit numeral for years 1000 to 9999), the lowercase three-letter
month abbreviation, the day and the slug, all derived from
`publish_date` and the stored slug; with `publish_date` unset it yields
the path keyed by the record's id; and the result depends on nothing
but `publish_date`, `slug` and `id`. -/
theorem get_absolute_url_spec :
    (∀ v : Video, ∀ d : DateTime, v.publish_date = some d →
      v.get_absolute_url =
        Url.detail (formatYear d.year) (pyLower (monthAbbrev d.month)) (pad2 d.day) v.slug) ∧
    (∀ v : Video, v.publish_date = none → v.get_absolute_url = Url.detailById v.id) ∧
    (∀ y : Nat, 1000 ≤ y → y < 10000 → (formatYear y).length = 4) ∧
    (∀ m : Nat, 1 ≤ m → m ≤ 12 →
      pyLower (monthAbbrev m) ∈
        (["jan", "feb", "mar", "apr", "may", "jun",
          "jul", "aug", "sep", "oct", "nov", "dec"] : List String)) ∧
    (∀ v w : Video, v.publish_date = w.publish_date → v.slug = w.slug → v.id = w.id →
      v.get_absolute_url = w.get_absolute_url) := by
  refine ⟨?_, ?_, formatYear_length4, monthAbbrev_lower_mem, ?_⟩
  · intro v d hd
    unfold Video.get_absolute_url
    rw [hd]
  · intro v hd
    unfold Video.get_absolute_url
    rw [hd]
  · intro v w hp hs hid
    unfold Video.get_absolute_url
    rw [hp, hs, hid]

/-- Witness for C4: the sample published record maps to the expected
concrete path, and its year renders with four digits. -/
theorem get_absolute_url_spec_witness :
    vPublished.get_absolute_url = Url.detail "2009" "mar" "05" "intro-clip" ∧
    (formatYear 2009).length = 4 :=
  ⟨(get_absolute_url_spec.1 vPublished dtA rfl).trans (by decide),
   get_absolute_url_spec.2.2.1 2009 (by decide) (by decide)⟩

/-- C5: the choices table as the source writes it labels OGG, WEBM and
FLASH as the claim states, but labels MP4 as the misspelt string
"vidoe/mp4", not "video/mp4": the claim's MP4 row diverges from the
code. -/
theorem video_type_label_table :
    get_video_type_display { video_type := OGG, basic_video := 0 } = "video/ogg" ∧
    get_video_type_display { video_type := WEBM, basic_video := 0 } = "video/webm" ∧
    get_video_type_display { video_type := FLASH, basic_video := 0 } = "video/flv" ∧
    get_video_type_display { video_type := MP4, basic_video := 0 } = "vidoe/mp4" ∧
    "vidoe/mp4" ≠ "video/mp4" := by
  refine ⟨rfl, rfl, rfl, rfl, ?_⟩
  decide

/-- C6: on every record without a self-hosted (`HTML5Video`) payload,
the `video_type` dispatch fails with the unknown-variant error. -/
theorem video_type_unknown_variant (r : VideoRecord)
    (h : hasSelfHostedPayload r = false) :
    video_type r = Except.error UnknownVariantError.unknownVariant := by
  obtain ⟨base, var⟩ := r
  cases var with
  | basic o =>
    cases o with
    | none => rfl
    | some p => simp [hasSelfHostedPayload] at h
  | embed u c => rfl
  | flash a b c e => rfl

/-- Witness for C6: the sample embedded-variant record. -/
theorem video_type_unknown_variant_witness :
    video_type rEmbed = Except.error UnknownVariantError.unknownVariant :=
  video_type_unknown_variant rEmbed rfl

/-- C7: whenever the configured value splits on the `x` delimiter into
exactly a width and a height, `get_player_size` returns the formatted
style string built from those two components, and with the setting
unset the default `"320x240"` yields the default style string. -/
theorem get_player_size_formats (cfg : Option String) (w h : String)
    (hs : pySplit (cfg.getD "320x240") 'x' = [w, h]) :
    get_player_size cfg = some ("width: " ++ w ++ "px; height: " ++ h ++ "px;") ∧
    get_player_size none = some "width: 320px; height: 240px;" := by
  refine ⟨?_, rfl⟩
  unfold get_player_size
  rw [hs]

/-- Witness for C7: the documented example value. -/
theorem get_player_size_formats_witness :
    get_player_size (some "1920x1080") = some "width: 1920px; height: 1080px;" :=
  (get_player_size_formats (some "1920x1080") "1920" "1080" rfl).1

/-- C8 counterexample: on the three-part value "1x2x3" the code does
not fail at all: the unguarded split simply uses the first two pieces
and succeeds, contradicting the claim that any value with other than
exactly two parts fails. -/
theorem get_player_size_three_parts :
    pySplit "1x2x3" 'x' = ["1", "2", "3"] ∧
    get_player_size (some "1x2x3") ≠ none ∧
    get_player_size (some "1x2x3") = some "width: 1px; height: 2px;" := by
  refine ⟨rfl, ?_, rfl⟩
  decide

/-- C8 (amended): `get_player_size` fails exactly when the configured
value splits on `x` into fewer than two parts, that is, when it
contains no `x` delimiter at all; values with three or more parts
succeed on the first two. -/
theorem get_player_size_fails_iff (cfg : Option String) :
    get_player_size cfg = none ↔ (pySplit (cfg.getD "320x240") 'x').length < 2 := by
  unfold get_player_size
  cases hsp : pySplit (cfg.getD "320x240") 'x' with
  | nil => simp
  | cons a t =>
    cases t with
    | nil => simp
    | cons b t2 => simp

/-- C9 counterexample: the schema's constraints admit a store in which
one base record owns two `HTML5Video` payload rows (the `basic_video`
foreign key is many-to-one, as the source comment "Allow for multiple
video types for a single video" says) and another base record owns
none, so "exactly one payload per record" is not an invariant of the
model. -/
theorem variant_exclusivity_counterexample :
    ¬ (∀ s : Store, s.valid → ∀ v ∈ s.basicVideos, (s.payloadsOf v).length = 1) :=
  fun hall => absurd (hall storeCex (by decide) vBase1 (by decide)) (by decide)

/-- C9 (amended): the direction the schema does enforce: in every store
satisfying the declared constraints, each `HTML5Video` payload row is
bound to exactly one existing base record, while a base record may own
zero or several payload rows. -/
theorem html5_payload_unique_owner (s : Store) (hs : s.valid)
    (h : HTML5Video) (hh : h ∈ s.html5Videos) :
    ∃! v : Video, v ∈ s.basicVideos ∧ v.id = h.basic_video := by
  obtain ⟨hpw, hfk⟩ := hs
  obtain ⟨v, hv, hid⟩ := hfk h hh
  refine ⟨v, ⟨hv, hid⟩, ?_⟩
  intro w hw
  by_contra hne
  have hsym : Symmetric (fun u v : Video => u.id ≠ v.id ∧ u.slug ≠ v.slug) :=
    fun u v hp => ⟨fun e => hp.1 e.symm, fun e => hp.2 e.symm⟩
  have hR := hpw.forall hsym hw.1 hv hne
  exact hR.1 (hw.2.trans hid.symm)

/-- Witness for the amended C9: the first payload row of the sample
store has exactly one owner. -/
theorem html5_payload_unique_owner_witness :
    ∃! v : Video, v ∈ storeCex.basicVideos ∧ v.id = h5A.basic_video :=
  html5_payload_unique_owner storeCex (by decide) h5A (by decide)

/-- C10: an `HTML5Video` payload created without an explicit media kind
does get the declared default `WEBM`, whose table label is
"video/webm" — but the dispatch on a record carrying such a fresh
payload still fails, because the `self.html5video` read in
`BasicVideo.video_type` raises (the `ForeignKey` reverse accessor is
`html5video_set`), so the code never returns the WEBM label the claim
promises. -/
theorem fresh_payload_video_type (base : Video) (bv : Nat) :
    ({ basic_video := bv } : HTML5Video).video_type = WEBM ∧
    get_video_type_display { basic_video := bv } = "video/webm" ∧
    video_type { base := base, variant := Variant.basic (some { basic_video := bv }) } =
      Except.error UnknownVariantError.unknownVariant :=
  ⟨rfl, rfl, rfl⟩

end Videostream
